import Mathlib

/-!
Shallow embedding of `mailfetcher.py` (dan-maftei/mailfetcher).

The module defines one class, `MailFetcher`, plus a module-level default
configuration dictionary and a helper `_unquoted_filename`.  Side effects
(filesystem, IMAP protocol, console output) are made explicit: stateful
code is modelled by explicit state passing over a small filesystem record
and by traces of `Act` values; code that can raise a Python exception
returns an `Option PyErr` component (`some e` = exception `e` propagates).
External collaborators (imaplib, transferwee, BeautifulSoup, zipfile) are
modelled at the granularity of their documented interfaces: the network
behaviour of `transferwee.download` and the HTML scraper are oracle
parameters, while the zip reader and imaplib's command/state rules are
modelled concretely where a claim depends on them.
-/

set_option autoImplicit false

/-- Python exceptions that the embedded code can raise. -/
inductive PyErr where
  /-- `UnboundLocalError`: a local variable read before assignment. -/
  | unboundLocal
  /-- `zipfile.BadZipFile`: invalid or corrupt zip data. -/
  | badZipFile
  /-- `imaplib.IMAP4.error`: an IMAP command issued in an illegal state. -/
  | imapError
  deriving DecidableEq, BEq

/-- One observable side effect of the download pipeline (filesystem calls,
`transferwee` calls and console output of `download_archives` /
`unzip_archive`, lines 171-216 of the source). -/
inductive Act where
  /-- `os.makedirs(outdir, exist_ok=True)` -/
  | makedirs (dir : String)
  /-- `os.chdir(outdir)` -/
  | chdir (dir : String)
  /-- `_unquoted_filename(link)`: link resolution via the transfer backend -/
  | resolve (link : String)
  /-- `self._log(f"Downloading {file_name}.")` -/
  | logDownloading (name : String)
  /-- `transferwee.download(link)` -/
  | download (link : String)
  /-- `print(f"{file_name:...}{size...} MB")` -/
  | printSize (name : String) (size : Nat)
  /-- `print("Failed!")` -/
  | printFailed
  /-- `zipf.extractall(outdir)` -/
  | extract (name : String)
  /-- `self._log("{} extracted.".format(file_name))` -/
  | logExtracted (name : String)
  /-- `os.unlink(file_name)` -/
  | unlink (name : String)
  /-- `self._log("{} deleted.".format(file_name))` -/
  | logDeleted (name : String)
  /-- `self._log("Unable to delete {}: ...".format(file_name))` -/
  | logDeleteFailed (name : String)
  deriving DecidableEq, BEq

/-- Boolean test that `pat` occurs as a contiguous sublist of a list. -/
def listInfixOf (pat : List Char) : List Char → Bool
  | [] => pat.isEmpty
  | c :: rest => pat.isPrefixOf (c :: rest) || listInfixOf pat rest

/-- Python's substring test `pat in s`. -/
def strContains (s pat : String) : Bool :=
  listInfixOf pat.toList s.toList

/-- The transfer-service download path marker of line 183:
`"wetransfer.com/downloads" in link`. -/
def wetransferMarker : String := "wetransfer.com/downloads"

/-- The recognized configuration keys, as one record.  `server`, `user` and
`password` (the `'pass'` key) are `Option`s because the default dictionary
(lines 73-79) does not contain them; `config.get(...)` returns `None` when
they are absent. -/
structure ConfigDict where
  mailbox : String
  autostart : Bool
  unzip : Bool
  keep_archive : Bool
  outdir : String
  server : Option String
  user : Option String
  password : Option String
  deriving DecidableEq

/-- A caller-supplied configuration mapping: each recognized key either
present (`some`) or absent (`none`).  Unrecognized keys are irrelevant to
the embedded behaviour and are not modelled. -/
structure CallerConfig where
  mailbox : Option String := none
  autostart : Option Bool := none
  unzip : Option Bool := none
  keep_archive : Option Bool := none
  outdir : Option String := none
  server : Option String := none
  user : Option String := none
  password : Option String := none
  deriving DecidableEq

/-- The module-level `defaults` dictionary (lines 73-79). -/
def defaults0 : ConfigDict :=
  { mailbox := "inbox"
    autostart := false
    unzip := true
    keep_archive := true
    outdir := "/tmp/zipfiles"
    server := none
    user := none
    password := none }

/-- One key of `dict.update`: a caller value overwrites, absence keeps the
old value (key whose dictionary value is mandatory). -/
def updOpt {α : Type} (new : Option α) (old : α) : α :=
  match new with
  | some v => v
  | none => old

/-- One key of `dict.update` for a key that may be absent on both sides. -/
def updOpt2 {α : Type} (new old : Option α) : Option α :=
  match new with
  | some v => some v
  | none => old

/-- `defaults.update(config)` (line 102): each caller-supplied key
overwrites the corresponding entry of the dictionary. -/
def dictUpdate (d : ConfigDict) (c : CallerConfig) : ConfigDict :=
  { mailbox := updOpt c.mailbox d.mailbox
    autostart := updOpt c.autostart d.autostart
    unzip := updOpt c.unzip d.unzip
    keep_archive := updOpt c.keep_archive d.keep_archive
    outdir := updOpt c.outdir d.outdir
    server := updOpt2 c.server d.server
    user := updOpt2 c.user d.user
    password := updOpt2 c.password d.password }

/-- Lines 101-102 of `MailFetcher.__init__`:
`self.config = defaults` binds the module-level dictionary itself (no
copy) and `self.config.update(config)` mutates it in place.  The result is
the pair (instance's `self.config`, module-level `defaults` after the
call); because of the aliasing the two components are the same
dictionary. -/
def initConfig (moduleDefaults : ConfigDict) (c : CallerConfig) : ConfigDict × ConfigDict :=
  let m := dictUpdate moduleDefaults c
  (m, m)

/-- A parsed mail object as returned by `email.message_from_bytes`: either a
single-part message or a multipart container with sub-messages.  Each node
carries its content type (`get_content_type()`), its content disposition
(`get_content_disposition()`, `none` when the header is absent) and, for a
single-part node, its decoded payload (`get_payload(decode=True)`, `none`
when no bytes can be obtained).  Payload bytes are modelled as `String`. -/
inductive MailMessage where
  | leaf (ct : String) (cd : Option String) (payload : Option String)
  | node (ct : String) (cd : Option String) (parts : List MailMessage)

/-- `message.get_content_type()`. -/
def MailMessage.contentType : MailMessage → String
  | .leaf ct _ _ => ct
  | .node ct _ _ => ct

/-- `message.get_content_disposition()`. -/
def MailMessage.disposition : MailMessage → Option String
  | .leaf _ cd _ => cd
  | .node _ cd _ => cd

/-- `message.is_multipart()`. -/
def MailMessage.isMultipart : MailMessage → Bool
  | .leaf _ _ _ => false
  | .node _ _ _ => true

/-- `message.get_payload(decode=True)`: for a multipart message the Python
email package returns `None`. -/
def MailMessage.payloadDecode : MailMessage → Option String
  | .leaf _ _ p => p
  | .node _ _ _ => none

mutual

/-- `message.walk()`: the message itself followed by the walk of every
sub-part, depth first, in their given order. -/
def walk : MailMessage → List MailMessage
  | .leaf ct cd p => [.leaf ct cd p]
  | .node ct cd parts => .node ct cd parts :: walkList parts

/-- Walk of a list of sub-parts, in order. -/
def walkList : List MailMessage → List MailMessage
  | [] => []
  | p :: rest => walk p ++ walkList rest

end

/-- The loop of lines 146-150: iterate over `message.walk()` and `break` at
the first part whose `get_content_type()` equals `'text/html'`. -/
def findHtml : List MailMessage → Option MailMessage
  | [] => none
  | p :: rest => if p.contentType = "text/html" then some p else findHtml rest

/-- Lines 145-156: determination of the local variable `body`.
For a multipart message the loop assigns `body` only when some walked part
has content type `'text/html'`; if no part matches, `body` is never
assigned and the later read `if body is None` raises `UnboundLocalError`.
For a non-multipart message `body` is the message's own decoded payload. -/
def selectBody (m : MailMessage) : Except PyErr (Option String) :=
  if m.isMultipart then
    match findHtml (walk m) with
    | some p => .ok p.payloadDecode
    | none => .error .unboundLocal
  else .ok m.payloadDecode

/-- Python `set` insertion, modelled as an order-preserving dedup. -/
def setInsert (l : List String) (x : String) : List String :=
  if l.contains x then l else l ++ [x]

/-- Accumulate candidate links into a set (lines 161-166). -/
def dedupLinks (xs : List String) : List String :=
  xs.foldl setInsert []

/-- `MailFetcher.get_wetransfer_links` (lines 137-169).  The BeautifulSoup
scrape is abstracted by two oracle functions: `spanF body` is the list of
text contents of `span` elements with class `download_link_link`, and
`hrefF body` the list of `href` attributes of `a` elements with that class
that carry an `href`.  Returns the extracted link list together with the
log lines, or the propagating Python exception. -/
def get_wetransfer_links (spanF hrefF : String → List String)
    (m : MailMessage) : Except PyErr (List String × List String) :=
  match selectBody m with
  | .error e => .error e
  | .ok none => .ok ([], ["Unable to parse message!"])
  | .ok (some b) =>
    let links := dedupLinks (spanF b ++ hrefF b)
    .ok (links, ["Found " ++ toString links.length ++ " links to download."])

/-- The filesystem and process state visible to the pipeline: the set of
existing files, which of those files are readable as valid zip archives
(with their entry names), the set of existing directories, and the
process-wide current working directory. -/
structure FS where
  files : List String
  zips : List (String × List String)
  dirs : List String
  cwd : String
  deriving DecidableEq

/-- `os.path.join(dir, name)` for a relative `name`. -/
def joinPath (dir name : String) : String := dir ++ "/" ++ name

/-- Set-semantics insertion into a list of strings. -/
def insertStr (x : String) (l : List String) : List String :=
  if x ∈ l then l else x :: l

/-- Create a file at path `p` (an existing file is overwritten). -/
def addFile (fs : FS) (p : String) : FS :=
  { fs with files := insertStr p fs.files }

/-- Record whether the file at `p` is a valid zip archive and, if so, its
entries (any stale record for `p` is dropped). -/
def setZipEntry (fs : FS) (p : String) (z : Option (List String)) : FS :=
  { fs with zips := match z with
      | some es => (p, es) :: fs.zips.filter (fun q => q.1 != p)
      | none => fs.zips.filter (fun q => q.1 != p) }

/-- Remove the file at `p`. -/
def removeFile (fs : FS) (p : String) : FS :=
  { fs with files := fs.files.filter (fun q => q != p)
            zips := fs.zips.filter (fun q => q.1 != p) }

/-- Open the file at `p` with `zipfile.ZipFile`: its entry list when it is
a valid zip archive, `none` otherwise (then `BadZipFile` is raised). -/
def lookupZip (fs : FS) (p : String) : Option (List String) :=
  (fs.zips.find? (fun q => q.1 == p)).map (fun q => q.2)

/-- `zipf.extractall(outdir)`: every entry is written at its relative path
beneath `outdir`. -/
def extractAll (outdir : String) (entries : List String) (fs : FS) : FS :=
  entries.foldl (fun a e => addFile a (joinPath outdir e)) fs

/-- `os.makedirs(d, exist_ok=True)`. -/
def fsMakedirs (fs : FS) (d : String) : FS :=
  { fs with dirs := insertStr d fs.dirs }

/-- `os.chdir(d)`. -/
def fsChdir (fs : FS) (d : String) : FS :=
  { fs with cwd := d }

/-- What the download backend produced for one link, an oracle for the
behaviour of `transferwee` and the network: the file name derived by
`_unquoted_filename`, whether `transferwee.download` left a file of that
name in the output directory (`none` = no file; `some z` = file present,
`z` its zip validity per `lookupZip`), the resulting `os.path.getsize`,
and whether a later `os.unlink` of the file would succeed. -/
structure LinkEnv where
  fileName : String
  downloaded : Option (Option (List String))
  size : Nat
  unlinkOk : Bool
  deriving DecidableEq

/-- Effect of `transferwee.download(link)` on the filesystem, per the
oracle. -/
def applyDownload (fs : FS) (full : String) : Option (Option (List String)) → FS
  | none => fs
  | some z => setZipEntry (addFile fs full) full z

/-- `MailFetcher.unzip_archive` (lines 199-216), called with the current
working directory equal to the configured output directory, so the
relative `file_name` denotes `outdir/file_name`.  Opening an invalid
archive raises `BadZipFile` before any entry is extracted; on success all
entries are extracted into `outdir`, completion is logged, and when
`keep_archive` is false the source archive is unlinked, a failure of the
unlink being caught and logged (lines 211-216). -/
def unzip_archive (cfg : ConfigDict) (unlinkOk : Bool) (fs : FS)
    (file_name : String) : Option PyErr × FS × List Act :=
  match lookupZip fs (joinPath cfg.outdir file_name) with
  | none => (some .badZipFile, fs, [])
  | some entries =>
    if cfg.keep_archive then
      (none, extractAll cfg.outdir entries fs,
        [Act.extract file_name, Act.logExtracted file_name])
    else if unlinkOk then
      (none, removeFile (extractAll cfg.outdir entries fs) (joinPath cfg.outdir file_name),
        [Act.extract file_name, Act.logExtracted file_name,
          Act.unlink file_name, Act.logDeleted file_name])
    else
      (none, extractAll cfg.outdir entries fs,
        [Act.extract file_name, Act.logExtracted file_name,
          Act.logDeleteFailed file_name])

/-- The per-link body of the loop of lines 182-196.  A link lacking the
marker substring is skipped with no effect at all.  Otherwise the link is
resolved, downloaded, and checked on disk; if the expected file exists its
size is printed and, when `unzip` is configured, `unzip_archive` runs
(whose `BadZipFile` propagates uncaught); if it does not exist, `Failed!`
is printed and the loop continues. -/
def processLink (cfg : ConfigDict) (env : String → LinkEnv) (fs : FS)
    (link : String) : Option PyErr × FS × List Act :=
  if strContains link wetransferMarker then
    if (applyDownload fs (joinPath cfg.outdir (env link).fileName)
          (env link).downloaded).files.contains
        (joinPath cfg.outdir (env link).fileName) then
      if cfg.unzip then
        ((unzip_archive cfg (env link).unlinkOk
            (applyDownload fs (joinPath cfg.outdir (env link).fileName)
              (env link).downloaded) (env link).fileName).1,
          (unzip_archive cfg (env link).unlinkOk
            (applyDownload fs (joinPath cfg.outdir (env link).fileName)
              (env link).downloaded) (env link).fileName).2.1,
          [Act.resolve link, Act.logDownloading (env link).fileName,
            Act.download link, Act.printSize (env link).fileName (env link).size] ++
          (unzip_archive cfg (env link).unlinkOk
            (applyDownload fs (joinPath cfg.outdir (env link).fileName)
              (env link).downloaded) (env link).fileName).2.2)
      else
        (none,
          applyDownload fs (joinPath cfg.outdir (env link).fileName)
            (env link).downloaded,
          [Act.resolve link, Act.logDownloading (env link).fileName,
            Act.download link, Act.printSize (env link).fileName (env link).size])
    else
      (none,
        applyDownload fs (joinPath cfg.outdir (env link).fileName)
          (env link).downloaded,
        [Act.resolve link, Act.logDownloading (env link).fileName,
          Act.download link, Act.printFailed])
  else (none, fs, [])

/-- Sequential processing of the link list; an uncaught exception from one
link's processing aborts the loop, leaving the remaining links
unprocessed. -/
def runLinks (cfg : ConfigDict) (env : String → LinkEnv) :
    FS → List String → Option PyErr × FS × List Act
  | fs, [] => (none, fs, [])
  | fs, l :: rest =>
    let r := processLink cfg env fs l
    match r.1 with
    | some er => (some er, r.2.1, r.2.2)
    | none =>
      let r2 := runLinks cfg env r.2.1 rest
      (r2.1, r2.2.1, r.2.2 ++ r2.2.2)

/-- `MailFetcher.download_archives` (lines 171-196): create the output
directory (recursively, `exist_ok=True`), change the process working
directory to it (never restored), then process each link in order. -/
def download_archives (cfg : ConfigDict) (env : String → LinkEnv) (fs : FS)
    (links : List String) : Option PyErr × FS × List Act :=
  let fs0 := fsChdir (fsMakedirs fs cfg.outdir) cfg.outdir
  let r := runLinks cfg env fs0 links
  (r.1, r.2.1, Act.makedirs cfg.outdir :: Act.chdir cfg.outdir :: r.2.2)

/-- Network oracle for `connect`: whether `imaplib.IMAP4_SSL(server)`
succeeds (an unreachable server raises, uncaught by the source) and
whether `login` is accepted. -/
structure NetEnv where
  sslOk : Bool
  loginOk : Bool
  deriving DecidableEq

/-- `MailFetcher.connect` (lines 110-134): when `server`, `user` or `pass`
is absent from the configuration the method returns `False` immediately,
before any network access and without logging.  Otherwise the TLS
connection is opened (constructor failure propagates), then login is
attempted inside `try`: success logs and returns `True`, an
`imaplib.IMAP4.error` logs the failure and returns `False`.  Result: the
connected status and the log lines, or the propagating exception. -/
def connect (cfg : ConfigDict) (net : NetEnv) : Except PyErr (Bool × List String) :=
  match cfg.server, cfg.user, cfg.password with
  | some srv, some usr, some _ =>
    if net.sslOk then
      if net.loginOk then
        .ok (true, ["Logged in on " ++ srv ++ " as " ++ usr ++ "."])
      else .ok (false, ["Login failed."])
    else .error .imapError
  | _, _, _ => .ok (false, [])

/-- IMAP protocol commands issued by `fetch`. -/
inductive ImapAct where
  | selectBox (name : String)
  | searchUnseen
  | fetchMsg (i : Nat)
  deriving DecidableEq

/-- `MailFetcher.fetch` (lines 219-238), at the protocol level.  When the
session is not connected, the method prints an error line and returns at
once, issuing no mailbox command.  Otherwise it selects the configured
mailbox, searches unread messages and fetches each found message id in
order (`unread` is the id list the search returns); the per-message link
extraction and downloading are `get_wetransfer_links` and
`download_archives`, modelled above.  Result: the issued IMAP commands
and the console lines. -/
def fetch (is_connected : Bool) (mailboxName : String) (unread : List Nat) :
    List ImapAct × List String :=
  if is_connected then
    (ImapAct.selectBox mailboxName :: ImapAct.searchUnseen ::
      unread.map ImapAct.fetchMsg, [])
  else ([], ["Error, not connected to IMAP server!"])

/-- States of an imaplib connection (imaplib tracks `NONAUTH`, `AUTH`,
`SELECTED`, `LOGOUT`). -/
inductive ImapState where
  | nonauth | auth | selectedS | logoutS
  deriving DecidableEq

/-- Model of `imaplib.IMAP4.close()`: per imaplib's command/state table the
`CLOSE` command is permitted only in the `SELECTED` state and returns the
connection to `AUTH`; in any other state the library raises
`imaplib.IMAP4.error` before contacting the server. -/
def imapClose : ImapState → Except PyErr ImapState
  | .selectedS => .ok .auth
  | _ => .error .imapError

/-- The session state a `MailFetcher` instance carries: the
`is_connected` flag computed by `connect` and the imaplib connection with
its protocol state (`selectedS` after a `fetch` selected the mailbox). -/
structure Session where
  is_connected : Bool
  imap : ImapState
  server : String
  deriving DecidableEq

/-- `MailFetcher.disconnect` (lines 241-245): when `is_connected` is true
it calls `self.mailbox.close()` and logs; the flag is never reset, and the
`close` call raises whenever the connection is not in the `SELECTED`
state.  When `is_connected` is false nothing happens. -/
def disconnect (s : Session) : Except PyErr (Session × List String) :=
  if s.is_connected then
    match imapClose s.imap with
    | .ok st =>
      .ok ({ s with imap := st }, ["Disconnected from " ++ s.server ++ "."])
    | .error e => .error e
  else .ok (s, [])

/-- Hexadecimal value of one character, as `urllib.parse.unquote` accepts
it. -/
def hexVal (c : Char) : Option Nat :=
  let n := c.toNat
  if 48 ≤ n ∧ n ≤ 57 then some (n - 48)
  else if 65 ≤ n ∧ n ≤ 70 then some (n - 55)
  else if 97 ≤ n ∧ n ≤ 102 then some (n - 87)
  else none

/-- `urllib.parse.unquote`, modelled over single-byte characters: a `%`
followed by two hex digits decodes to that byte; an invalid escape is kept
verbatim. -/
def percentDecode : List Char → List Char
  | [] => []
  | '%' :: a :: b :: rest =>
    match hexVal a, hexVal b with
    | some x, some y => Char.ofNat (16 * x + y) :: percentDecode rest
    | _, _ => '%' :: percentDecode (a :: b :: rest)
  | c :: rest => c :: percentDecode rest

/-- Python's `str.replace(pat, '')`: one left-to-right pass removing
non-overlapping occurrences of `pat`.  The fuel is the input length, which
bounds the number of steps. -/
def pyRemoveFuel : Nat → List Char → List Char → List Char
  | 0, _, s => s
  | _ + 1, _, [] => []
  | fuel + 1, pat, c :: rest =>
    if (!pat.isEmpty) && pat.isPrefixOf (c :: rest) then
      pyRemoveFuel fuel pat ((c :: rest).drop pat.length)
    else c :: pyRemoveFuel fuel pat rest

/-- `s.replace(pat, '')` on character lists. -/
def pyRemove (pat : String) (s : List Char) : List Char :=
  pyRemoveFuel s.length pat.toList s

/-- The suffix of `l` after the first occurrence of `pat`, if any. -/
def afterMarker (pat : List Char) : List Char → Option (List Char)
  | [] => if pat.isEmpty then some [] else none
  | c :: rest =>
    if pat.isPrefixOf (c :: rest) then some ((c :: rest).drop pat.length)
    else afterMarker pat rest

/-- `urllib.parse.urlparse(url).path`: drop the scheme and network
location when the URL has a `://`, then keep the path up to any query or
fragment. -/
def urlPath (url : String) : List Char :=
  match afterMarker "://".toList url.toList with
  | some restAfter =>
    (restAfter.dropWhile (fun c => c != '/')).takeWhile
      (fun c => (c != '?') && (c != '#'))
  | none => url.toList.takeWhile (fun c => (c != '?') && (c != '#'))

/-- Split a character list on `'/'` (Python's `str.split('/')`; always
non-empty). -/
def splitSlash : List Char → List (List Char)
  | [] => [[]]
  | c :: rest =>
    let r := splitSlash rest
    if c = '/' then [] :: r
    else
      match r with
      | [] => [[c]]
      | g :: gs => (c :: g) :: gs

/-- `urlparse(url).path.split('/')[-1]`. -/
def lastSeg (l : List Char) : List Char :=
  (splitSlash l).getLastD []

/-- `_unquoted_filename` (lines 82-90).  `transferwee.download_url`
resolves the WeTransfer link over the network; it is the `resolver`
oracle.  The file name is the URL path's last `/`-segment, percent
decoded, with the substrings `../`, `/` and `\` removed in that order. -/
def _unquoted_filename (resolver : String → String) (we_url : String) : String :=
  let url := resolver we_url
  let name := lastSeg (urlPath url)
  String.mk (pyRemove "\\" (pyRemove "/" (pyRemove "../" (percentDecode name))))

/-- Resolve a `/`-separated path to its list of segments, folding away
empty segments, `.` and `..` (the latter popping the previous segment). -/
def normSegs : List (List Char) → List (List Char) → List (List Char)
  | acc, [] => acc
  | acc, s :: rest =>
    if s = [] ∨ s = ['.'] then normSegs acc rest
    else if s = ['.', '.'] then normSegs acc.dropLast rest
    else normSegs (acc ++ [s]) rest

/-- Whether joining `name` to the directory `dir` resolves to a path that
is still inside `dir` (the resolved segments of `dir` remain a prefix of
the resolved segments of `dir/name`). -/
def staysWithin (dir name : String) : Bool :=
  (normSegs [] (splitSlash dir.toList)).isPrefixOf
    (normSegs [] (splitSlash (joinPath dir name).toList))

/-! ### Helper lemmas -/

theorem updOpt_eq_getD {α : Type} (x : Option α) (d : α) : updOpt x d = x.getD d := by
  cases x <;> rfl

theorem updOpt2_none {α : Type} (x : Option α) : updOpt2 x none = x := by
  cases x <;> rfl

theorem mem_insertStr {y x : String} {l : List String} :
    y ∈ insertStr x l ↔ y = x ∨ y ∈ l := by
  unfold insertStr
  split
  · constructor
    · exact Or.inr
    · rintro (rfl | hy)
      · assumption
      · assumption
  · simp [List.mem_cons]

theorem mem_insertStr_self (x : String) (l : List String) : x ∈ insertStr x l :=
  mem_insertStr.mpr (Or.inl rfl)

theorem mem_addFile {q p : String} {fs : FS} :
    q ∈ (addFile fs p).files ↔ q = p ∨ q ∈ fs.files := mem_insertStr

theorem mem_extractAll_of_mem (d : String) (es : List String) {q : String} :
    ∀ {fs : FS}, q ∈ fs.files → q ∈ (extractAll d es fs).files := by
  induction es with
  | nil => intro fs h; exact h
  | cons a rest ih =>
    intro fs h
    exact ih (mem_addFile.mpr (Or.inr h))

theorem mem_extractAll_self (d : String) {es : List String} {e : String}
    (he : e ∈ es) : ∀ (fs : FS), joinPath d e ∈ (extractAll d es fs).files := by
  induction es with
  | nil => cases he
  | cons a rest ih =>
    intro fs
    rcases List.mem_cons.mp he with rfl | hmem
    · exact mem_extractAll_of_mem d rest (mem_addFile.mpr (Or.inl rfl))
    · exact ih hmem _

theorem mem_removeFile {q p : String} {fs : FS} :
    q ∈ (removeFile fs p).files ↔ q ∈ fs.files ∧ q ≠ p := by
  unfold removeFile
  simp only [List.mem_filter, bne_iff_ne]

theorem findHtml_spec : ∀ (l : List MailMessage) (p : MailMessage),
    findHtml l = some p →
    p.contentType = "text/html" ∧
    l.find? (fun q => q.contentType == "text/html") = some p := by
  intro l
  induction l with
  | nil => intro p h; cases h
  | cons a rest ih =>
    intro p h
    unfold findHtml at h
    by_cases hct : a.contentType = "text/html"
    · rw [if_pos hct] at h
      cases h
      refine ⟨hct, ?_⟩
      simp [List.find?, hct]
    · rw [if_neg hct] at h
      obtain ⟨h1, h2⟩ := ih p h
      refine ⟨h1, ?_⟩
      have : (a.contentType == "text/html") = false := beq_false_of_ne hct
      simp [List.find?, this, h2]

theorem extractAll_cwd (d : String) (es : List String) :
    ∀ (fs : FS), (extractAll d es fs).cwd = fs.cwd := by
  induction es with
  | nil => intro fs; rfl
  | cons a rest ih => intro fs; exact ih (addFile fs (joinPath d a))

theorem extractAll_dirs (d : String) (es : List String) :
    ∀ (fs : FS), (extractAll d es fs).dirs = fs.dirs := by
  induction es with
  | nil => intro fs; rfl
  | cons a rest ih => intro fs; exact ih (addFile fs (joinPath d a))

theorem unzip_archive_cwd_dirs (cfg : ConfigDict) (u : Bool) (fs : FS) (n : String) :
    (unzip_archive cfg u fs n).2.1.cwd = fs.cwd ∧
    (unzip_archive cfg u fs n).2.1.dirs = fs.dirs := by
  rcases hz : lookupZip fs (joinPath cfg.outdir n) with _ | es
  · simp only [unzip_archive, hz]
    exact ⟨trivial, trivial⟩
  · simp only [unzip_archive, hz]
    split
    · exact ⟨extractAll_cwd _ _ _, extractAll_dirs _ _ _⟩
    · split
      · exact ⟨extractAll_cwd _ _ _, extractAll_dirs _ _ _⟩
      · exact ⟨extractAll_cwd _ _ _, extractAll_dirs _ _ _⟩

theorem applyDownload_cwd_dirs (fs : FS) (full : String)
    (z : Option (Option (List String))) :
    (applyDownload fs full z).cwd = fs.cwd ∧ (applyDownload fs full z).dirs = fs.dirs := by
  cases z with
  | none => exact ⟨rfl, rfl⟩
  | some zz => exact ⟨rfl, rfl⟩

theorem processLink_cwd_dirs (cfg : ConfigDict) (env : String → LinkEnv)
    (fs : FS) (l : String) :
    (processLink cfg env fs l).2.1.cwd = fs.cwd ∧
    (processLink cfg env fs l).2.1.dirs = fs.dirs := by
  unfold processLink
  split
  · split
    · split
      · obtain ⟨h1, h2⟩ := unzip_archive_cwd_dirs cfg (env l).unlinkOk
          (applyDownload fs (joinPath cfg.outdir (env l).fileName) (env l).downloaded)
          (env l).fileName
        obtain ⟨h3, h4⟩ := applyDownload_cwd_dirs fs
          (joinPath cfg.outdir (env l).fileName) (env l).downloaded
        exact ⟨h1.trans h3, h2.trans h4⟩
      · exact applyDownload_cwd_dirs fs _ _
    · exact applyDownload_cwd_dirs fs _ _
  · exact ⟨rfl, rfl⟩

theorem runLinks_cwd_dirs (cfg : ConfigDict) (env : String → LinkEnv) :
    ∀ (links : List String) (fs : FS),
    (runLinks cfg env fs links).2.1.cwd = fs.cwd ∧
    (runLinks cfg env fs links).2.1.dirs = fs.dirs := by
  intro links
  induction links with
  | nil => intro fs; exact ⟨rfl, rfl⟩
  | cons l rest ih =>
    intro fs
    obtain ⟨hc, hd⟩ := processLink_cwd_dirs cfg env fs l
    unfold runLinks
    cases hr : (processLink cfg env fs l).1 with
    | some er => simp only [hr]; rw [hc, hd]; exact ⟨rfl, rfl⟩
    | none =>
      simp only [hr]
      obtain ⟨ic, id'⟩ := ih (processLink cfg env fs l).2.1
      exact ⟨ic.trans hc, id'.trans hd⟩

theorem pyRemoveFuel_sublist (pat : List Char) :
    ∀ (fuel : Nat) (s : List Char), List.Sublist (pyRemoveFuel fuel pat s) s := by
  intro fuel
  induction fuel with
  | zero => intro s; simp [pyRemoveFuel]
  | succ f ih =>
    intro s
    cases s with
    | nil => simp [pyRemoveFuel]
    | cons c rest =>
      unfold pyRemoveFuel
      split
      · exact (ih _).trans (List.drop_sublist _ _)
      · exact (ih rest).cons₂ c

theorem not_mem_pyRemoveFuel_single (c : Char) :
    ∀ (fuel : Nat) (s : List Char), s.length ≤ fuel → c ∉ pyRemoveFuel fuel [c] s := by
  intro fuel
  induction fuel with
  | zero =>
    intro s hs
    have : s = [] := List.eq_nil_of_length_eq_zero (Nat.le_zero.mp hs)
    subst this
    simp [pyRemoveFuel]
  | succ f ih =>
    intro s hs
    cases s with
    | nil => simp [pyRemoveFuel]
    | cons a rest =>
      unfold pyRemoveFuel
      split
      · rename_i h
        have hpre : [c].isPrefixOf (a :: rest) = true := by
          have := (Bool.and_eq_true _ _).mp h
          exact this.2
        simp only [List.isPrefixOf, Bool.and_eq_true, List.isPrefixOf] at hpre
        exact ih _ (by simpa using Nat.le_of_succ_le_succ hs)
      · rename_i h
        have hne : a ≠ c := by
          intro heq
          subst heq
          apply h
          simp [List.isPrefixOf]
        simp only [List.mem_cons, not_or]
        exact ⟨fun hh => hne hh.symm, ih rest (Nat.le_of_succ_le_succ hs)⟩

theorem not_mem_pyRemove_single (c : Char) (s : List Char) :
    c ∉ pyRemove (String.mk [c]) s :=
  not_mem_pyRemoveFuel_single c s.length s (Nat.le_refl _)

/-! ### Claim theorems -/

/-- Concrete caller configuration for the C4 counterexample, overriding
only the `unzip` key. -/
def callerUnzipOff : CallerConfig := { unzip := some false }

/-- C4 counterexample: construct one `MailFetcher` with `{'unzip': False}`
and then a second one with an empty configuration.  Because construction
mutates the shared module-level `defaults` dictionary in place, the second
instance's `unzip` is `false` although that caller did not supply the key
and the documented default is `true` — refuting the claim that every
field not supplied by a caller has its default value, independently for
every instance constructed in succession. -/
theorem c4_shared_defaults_leak :
    (initConfig (initConfig defaults0 callerUnzipOff).2 {}).1.unzip = false ∧
    ({} : CallerConfig).unzip = none ∧
    defaults0.unzip = true := by
  exact ⟨rfl, rfl, rfl⟩

/-- C4 amended: for the first instance constructed while the module-level
defaults are still pristine, the effective configuration is the caller's
values overlaid on the documented defaults (mailbox `"inbox"`, autostart
`false`, unzip `true`, keep_archive `true`, outdir the temp path, and no
credentials unless supplied); but the overlay is written into the shared
defaults dictionary itself, which later constructions mutate further, so
the independence and read-only parts of the original claim fail. -/
theorem c4_first_instance_overlay (c : CallerConfig) :
    (initConfig defaults0 c).1.mailbox = c.mailbox.getD "inbox" ∧
    (initConfig defaults0 c).1.autostart = c.autostart.getD false ∧
    (initConfig defaults0 c).1.unzip = c.unzip.getD true ∧
    (initConfig defaults0 c).1.keep_archive = c.keep_archive.getD true ∧
    (initConfig defaults0 c).1.outdir = c.outdir.getD "/tmp/zipfiles" ∧
    (initConfig defaults0 c).1.server = c.server ∧
    (initConfig defaults0 c).1.user = c.user ∧
    (initConfig defaults0 c).1.password = c.password ∧
    (initConfig defaults0 c).2 = (initConfig defaults0 c).1 := by
  refine ⟨?_, ?_, ?_, ?_, ?_, ?_, ?_, ?_, rfl⟩ <;>
    simp [initConfig, dictUpdate, defaults0, updOpt_eq_getD, updOpt2_none]

/-- C5: whenever the server, the username or the password is absent from
the configuration, `connect` returns `False` without raising and without
logging, and a subsequent `fetch` on the resulting disconnected session is
a no-op: it issues no IMAP command and its only console output is the
single not-connected notice line. -/
theorem c5_missing_credentials_not_connected (cfg : ConfigDict) (net : NetEnv)
    (unread : List Nat)
    (h : cfg.server = none ∨ cfg.user = none ∨ cfg.password = none) :
    connect cfg net = .ok (false, []) ∧
    fetch false cfg.mailbox unread = ([], ["Error, not connected to IMAP server!"]) := by
  obtain ⟨mb, au, uz, ka, od, sv, us, pw⟩ := cfg
  refine ⟨?_, rfl⟩
  rcases h with h | h | h <;> simp only at h <;> subst h
  · rfl
  · cases sv <;> rfl
  · cases sv <;> first | rfl | (cases us <;> rfl)

/-- Concrete configuration for the C5 witness: server and user present,
password absent. -/
def cfgNoPass : ConfigDict :=
  { defaults0 with server := some "mail.example.com", user := some "john.doe" }

/-- C5 witness: the theorem applied to a concrete configuration that lacks
only the password. -/
theorem c5_missing_credentials_witness :
    (cfgNoPass.server = none ∨ cfgNoPass.user = none ∨ cfgNoPass.password = none) ∧
    (connect cfgNoPass ⟨true, true⟩ = .ok (false, []) ∧
      fetch false cfgNoPass.mailbox [3, 7] =
        ([], ["Error, not connected to IMAP server!"])) :=
  ⟨Or.inr (Or.inr rfl),
    c5_missing_credentials_not_connected cfgNoPass ⟨true, true⟩ [3, 7]
      (Or.inr (Or.inr rfl))⟩

/-- C6: a link whose string lacks the transfer-service download path
marker is skipped entirely by the per-link loop of `download_archives`: it
is not resolved, not downloaded, causes no filesystem change and produces
no output, in particular no failure record. -/
theorem c6_nonmatching_link_skipped (cfg : ConfigDict) (env : String → LinkEnv)
    (fs : FS) (link : String)
    (h : strContains link wetransferMarker = false) :
    processLink cfg env fs link = (none, fs, []) := by
  unfold processLink
  rw [h]
  simp

/-- C6 witness: the theorem applied to a concrete non-matching link. -/
theorem c6_nonmatching_link_skipped_witness :
    strContains "https://example.com/not-a-transfer" wetransferMarker = false ∧
    processLink defaults0 (fun _ => ⟨"x.zip", none, 0, true⟩) ⟨[], [], [], "/"⟩
      "https://example.com/not-a-transfer" = (none, ⟨[], [], [], "/"⟩, []) :=
  ⟨by decide,
    c6_nonmatching_link_skipped defaults0 (fun _ => ⟨"x.zip", none, 0, true⟩)
      ⟨[], [], [], "/"⟩ "https://example.com/not-a-transfer" (by decide)⟩

/-- C10: every call of `download_archives` — with any link list, including
the empty one and ones with only non-matching links — creates the output
directory and changes the process-wide current working directory to it,
and the working directory is still the output directory when the call
ends, whatever it was before. -/
theorem c10_outdir_created_and_cwd_changed (cfg : ConfigDict)
    (env : String → LinkEnv) (fs : FS) (links : List String) :
    (download_archives cfg env fs links).2.1.cwd = cfg.outdir ∧
    cfg.outdir ∈ (download_archives cfg env fs links).2.1.dirs ∧
    ∃ rest, (download_archives cfg env fs links).2.2 =
      Act.makedirs cfg.outdir :: Act.chdir cfg.outdir :: rest := by
  obtain ⟨hc, hd⟩ := runLinks_cwd_dirs cfg env links
    (fsChdir (fsMakedirs fs cfg.outdir) cfg.outdir)
  refine ⟨hc, ?_, ?_⟩
  · rw [show (download_archives cfg env fs links).2.1.dirs =
        (runLinks cfg env (fsChdir (fsMakedirs fs cfg.outdir) cfg.outdir) links).2.1.dirs
      from rfl, hd]
    exact mem_insertStr_self _ _
  · exact ⟨(runLinks cfg env (fsChdir (fsMakedirs fs cfg.outdir) cfg.outdir) links).2.2, rfl⟩

/-- Configuration for the C1 failing input: defaults (so `unzip` is true)
with output directory `/out`. -/
def cfgC1 : ConfigDict := { defaults0 with outdir := "/out" }

/-- First link of the C1 failing input (matches the marker). -/
def linkCorrupt : String := "https://wetransfer.com/downloads/corrupt"

/-- Second link of the C1 failing input (matches the marker). -/
def linkGood : String := "https://wetransfer.com/downloads/good"

/-- Download oracle for the C1 failing input: the first link downloads a
file that is not a valid zip archive, the second would download a valid
one. -/
def envC1 : String → LinkEnv := fun l =>
  if l == linkCorrupt then ⟨"a.zip", some none, 5, true⟩
  else ⟨"b.zip", some (some ["f.txt"]), 7, true⟩

/-- C1: evaluation of `download_archives` at the failing input.  The first
link downloads successfully but its file is an invalid zip, so
`unzip_archive` raises `BadZipFile`; nothing in `download_archives`
catches it, the exception propagates, and the second link — although it
carries the marker and would have been processed — is never resolved or
downloaded.  This contradicts the claim that an archive-reader failure on
one link is caught, logged, and never prevents processing of subsequent
links. -/
theorem c1_zip_failure_aborts_remaining_links :
    (download_archives cfgC1 envC1 ⟨[], [], [], "/"⟩ [linkCorrupt, linkGood]).1 =
      some PyErr.badZipFile ∧
    ((download_archives cfgC1 envC1 ⟨[], [], [], "/"⟩ [linkCorrupt, linkGood]).2.2.contains
      (Act.download linkGood)) = false ∧
    ((download_archives cfgC1 envC1 ⟨[], [], [], "/"⟩ [linkCorrupt, linkGood]).2.2.contains
      (Act.resolve linkGood)) = false ∧
    strContains linkGood wetransferMarker = true := by
  exact ⟨by decide, by decide, by decide, by decide⟩

/-- The C2 failing input: a multipart message whose only part is
`text/plain` — no part has content type `text/html`. -/
def msgNoHtml : MailMessage :=
  .node "multipart/mixed" none [.leaf "text/plain" none (some "hello")]

/-- C2: evaluation at the failing input.  For a multipart message with no
`text/html` part the loop of lines 146-150 never assigns `body`, so the
read at line 154 raises `UnboundLocalError` — the code neither falls back
to the message's own decoded payload nor returns an empty collection, for
every possible behaviour of the HTML scraper. -/
theorem c2_multipart_without_html_raises (spanF hrefF : String → List String) :
    get_wetransfer_links spanF hrefF msgNoHtml = .error PyErr.unboundLocal := by
  rfl

/-- The text/html part of the C3 counterexample message that is an
attachment. -/
def partAttached : MailMessage := .leaf "text/html" (some "attachment") (some "ATT")

/-- The text/html part of the C3 counterexample message that is not an
attachment. -/
def partInline : MailMessage := .leaf "text/html" none (some "INL")

/-- The C3 counterexample message: an attachment text/html part followed
by an inline text/html part. -/
def msgAttFirst : MailMessage := .node "multipart/mixed" none [partAttached, partInline]

/-- Selection rule modelled from the spec's words, for comparison with the
code: the first walked part whose content type is exactly `text/html` and
whose content disposition does not indicate an attachment. -/
def selectBodySpec (m : MailMessage) : Option (Option String) :=
  ((walk m).find? (fun p =>
    p.contentType == "text/html" && !(p.disposition == some "attachment"))).map
    (fun p => p.payloadDecode)

/-- C3 counterexample: on a multipart message whose first text/html part
is an attachment, the code selects that attachment part's payload as the
body (the loop checks only the content type), while the spec's rule would
select the later inline part — refuting the claim that a text/html
attachment part is never selected. -/
theorem c3_attachment_html_selected :
    selectBody msgAttFirst = .ok (some "ATT") ∧
    partAttached.disposition = some "attachment" ∧
    partAttached.contentType = "text/html" ∧
    selectBodySpec msgAttFirst = some (some "INL") := by
  exact ⟨rfl, rfl, rfl, rfl⟩

/-- C3 amended: for every multipart message, the code scans the walked
parts in their given order and selects as body the payload of the first
part whose content type is exactly `text/html`, with no condition on the
content disposition — so a text/html part that is an attachment can be
selected. -/
theorem c3_first_html_part_selected (m p : MailMessage)
    (hm : m.isMultipart = true)
    (hp : findHtml (walk m) = some p) :
    selectBody m = .ok p.payloadDecode ∧
    p.contentType = "text/html" ∧
    (walk m).find? (fun q => q.contentType == "text/html") = some p := by
  obtain ⟨h1, h2⟩ := findHtml_spec (walk m) p hp
  refine ⟨?_, h1, h2⟩
  unfold selectBody
  rw [hm, hp]
  simp

/-- C3 witness: the amended theorem applied to the counterexample message,
whose first text/html part in walk order is the attachment part. -/
theorem c3_first_html_part_selected_witness :
    msgAttFirst.isMultipart = true ∧
    findHtml (walk msgAttFirst) = some partAttached ∧
    (selectBody msgAttFirst = .ok partAttached.payloadDecode ∧
      partAttached.contentType = "text/html" ∧
      (walk msgAttFirst).find? (fun q => q.contentType == "text/html") =
        some partAttached) :=
  ⟨rfl, rfl, c3_first_html_part_selected msgAttFirst partAttached rfl rfl⟩

/-- Configuration for the C7 theorems: output directory `/o`, archives not
kept. -/
def cfgDrop : ConfigDict := { defaults0 with outdir := "/o", keep_archive := false }

/-- Filesystem for the C7 theorems: the downloaded file `/o/a.zip` exists
and is a valid zip archive with one entry `x`. -/
def fsWithZip : FS := ⟨["/o/a.zip"], [("/o/a.zip", ["x"])], ["/o"], "/o"⟩

/-- C7 counterexample: with `keep_archive` false and an `os.unlink` that
fails, extraction succeeds, the run is not aborted and the failure is
caught and logged — but the source archive file still exists although
`keep_archive` is false, refuting the claimed equivalence that the archive
exists afterward if and only if `keep_archive` is true. -/
theorem c7_deletion_failure_archive_remains :
    cfgDrop.keep_archive = false ∧
    (unzip_archive cfgDrop false fsWithZip "a.zip").1 = none ∧
    ((unzip_archive cfgDrop false fsWithZip "a.zip").2.1.files.contains "/o/a.zip") = true ∧
    ((unzip_archive cfgDrop false fsWithZip "a.zip").2.2.contains
      (Act.logDeleteFailed "a.zip")) = true := by
  exact ⟨rfl, rfl, by decide, by decide⟩

/-- C7 amended: for a valid zip archive present in the output directory,
`unzip_archive` raises nothing, every entry of the archive is present at
its relative path under the output directory afterwards (provided no entry
shadows the archive's own path), the archive file still exists afterward
if and only if `keep_archive` is true or the deletion attempt failed, and
when `keep_archive` is false a deletion failure is caught and logged and
never aborts the run. -/
theorem c7_unzip_roundtrip (cfg : ConfigDict) (u : Bool) (fs : FS)
    (name : String) (entries : List String)
    (hz : lookupZip fs (joinPath cfg.outdir name) = some entries)
    (hin : joinPath cfg.outdir name ∈ fs.files)
    (hne : ∀ e ∈ entries, joinPath cfg.outdir e ≠ joinPath cfg.outdir name) :
    (unzip_archive cfg u fs name).1 = none ∧
    (∀ e ∈ entries, joinPath cfg.outdir e ∈ (unzip_archive cfg u fs name).2.1.files) ∧
    (joinPath cfg.outdir name ∈ (unzip_archive cfg u fs name).2.1.files ↔
      (cfg.keep_archive = true ∨ u = false)) ∧
    (cfg.keep_archive = false → u = false →
      Act.logDeleteFailed name ∈ (unzip_archive cfg u fs name).2.2) := by
  by_cases hk : cfg.keep_archive = true
  · simp only [unzip_archive, hz, if_pos hk]
    refine ⟨trivial, ?_, ?_, ?_⟩
    · intro e he
      exact mem_extractAll_self cfg.outdir he fs
    · constructor
      · intro _; exact Or.inl hk
      · intro _; exact mem_extractAll_of_mem cfg.outdir entries hin
    · intro hcon; rw [hk] at hcon; cases hcon
  · have hk' : cfg.keep_archive = false := by
      cases h : cfg.keep_archive
      · rfl
      · exact absurd h hk
    by_cases hu : u = true
    · simp only [unzip_archive, hz, if_neg hk, if_pos hu]
      refine ⟨trivial, ?_, ?_, ?_⟩
      · intro e he
        exact mem_removeFile.mpr ⟨mem_extractAll_self cfg.outdir he fs, hne e he⟩
      · constructor
        · intro hmem
          exact absurd rfl (mem_removeFile.mp hmem).2
        · rintro (h | h)
          · exact absurd h hk
          · rw [hu] at h; cases h
      · intro _ h; rw [hu] at h; cases h
    · have hu' : u = false := by
        cases h : u
        · rfl
        · exact absurd h hu
      simp only [unzip_archive, hz, if_neg hk, if_neg hu]
      refine ⟨trivial, ?_, ?_, ?_⟩
      · intro e he
        exact mem_extractAll_self cfg.outdir he fs
      · constructor
        · intro _; exact Or.inr hu'
        · intro _; exact mem_extractAll_of_mem cfg.outdir entries hin
      · intro _ _; simp

/-- C7 witness: the amended theorem applied to the concrete filesystem
with the valid archive `/o/a.zip`, `keep_archive` false and a failing
unlink. -/
theorem c7_unzip_roundtrip_witness :
    (lookupZip fsWithZip (joinPath cfgDrop.outdir "a.zip") = some ["x"] ∧
      joinPath cfgDrop.outdir "a.zip" ∈ fsWithZip.files ∧
      (∀ e ∈ ["x"], joinPath cfgDrop.outdir e ≠ joinPath cfgDrop.outdir "a.zip")) ∧
    ((unzip_archive cfgDrop false fsWithZip "a.zip").1 = none ∧
      (∀ e ∈ ["x"],
        joinPath cfgDrop.outdir e ∈ (unzip_archive cfgDrop false fsWithZip "a.zip").2.1.files) ∧
      (joinPath cfgDrop.outdir "a.zip" ∈ (unzip_archive cfgDrop false fsWithZip "a.zip").2.1.files ↔
        (cfgDrop.keep_archive = true ∨ false = false)) ∧
      (cfgDrop.keep_archive = false → false = false →
        Act.logDeleteFailed "a.zip" ∈ (unzip_archive cfgDrop false fsWithZip "a.zip").2.2)) := by
  have h1 : lookupZip fsWithZip (joinPath cfgDrop.outdir "a.zip") = some ["x"] := by decide
  have h2 : joinPath cfgDrop.outdir "a.zip" ∈ fsWithZip.files := by decide
  have h3 : ∀ e ∈ ["x"], joinPath cfgDrop.outdir e ≠ joinPath cfgDrop.outdir "a.zip" := by
    decide
  exact ⟨⟨h1, h2, h3⟩, c7_unzip_roundtrip cfgDrop false fsWithZip "a.zip" ["x"] h1 h2 h3⟩

/-- A session that connected and whose `fetch` selected a mailbox. -/
def sessConnected : Session := ⟨true, .selectedS, "mail.example.com"⟩

/-- C8 counterexample: on a connected session with a selected mailbox the
first `disconnect` closes and logs, but it never clears `is_connected`, so
the second `disconnect` issues `CLOSE` again in the `AUTH` state and the
IMAP library raises — refuting the claim that every call beyond the first
is safe. -/
theorem c8_second_disconnect_raises :
    disconnect sessConnected =
      .ok (⟨true, .auth, "mail.example.com"⟩, ["Disconnected from mail.example.com."]) ∧
    disconnect ⟨true, ImapState.auth, "mail.example.com"⟩ = .error PyErr.imapError := by
  exact ⟨rfl, rfl⟩

/-- C8 amended: `disconnect` is a no-op when the session was never
connected; for a connected session with a selected mailbox the first call
closes the mailbox and logs, but because the connected flag is never
cleared, any further call issues `CLOSE` outside the `SELECTED` state and
raises an IMAP error instead of being safe. -/
theorem c8_disconnect_amended (s t : Session)
    (hs : s.is_connected = false)
    (ht : t.is_connected = true) (hsel : t.imap = ImapState.selectedS) :
    disconnect s = .ok (s, []) ∧
    disconnect t = .ok ({ t with imap := ImapState.auth },
      ["Disconnected from " ++ t.server ++ "."]) ∧
    disconnect { t with imap := ImapState.auth } = .error PyErr.imapError := by
  refine ⟨?_, ?_, ?_⟩
  · unfold disconnect
    rw [hs]
    simp
  · unfold disconnect
    rw [ht, hsel]
    simp [imapClose]
  · unfold disconnect
    have hconn : ({ t with imap := ImapState.auth } : Session).is_connected = true := ht
    rw [hconn]
    simp [imapClose]

/-- A session that never connected. -/
def sessNever : Session := ⟨false, .nonauth, "mail.example.com"⟩

/-- C8 witness: the amended theorem applied to a never-connected session
and to the connected, selected session. -/
theorem c8_disconnect_amended_witness :
    (sessNever.is_connected = false ∧ sessConnected.is_connected = true ∧
      sessConnected.imap = ImapState.selectedS) ∧
    (disconnect sessNever = .ok (sessNever, []) ∧
      disconnect sessConnected = .ok ({ sessConnected with imap := ImapState.auth },
        ["Disconnected from " ++ sessConnected.server ++ "."]) ∧
      disconnect { sessConnected with imap := ImapState.auth } = .error PyErr.imapError) :=
  ⟨⟨rfl, rfl, rfl⟩, c8_disconnect_amended sessNever sessConnected rfl rfl rfl⟩

/-- A link-resolution oracle whose canonical download URL has `..` as the
last segment of its path. -/
def dotdotResolver : String → String := fun _ => "https://dl.example.com/x/.."

/-- C9 counterexample: when the resolved download URL's path ends in the
segment `..`, `_unquoted_filename` returns `..` unchanged (the code
removes the substrings `../`, `/` and `\`, none of which occurs in `..`),
and joining `..` to the output directory resolves to the directory's
parent — outside it — refuting the claimed path-traversal safety. -/
theorem c9_dotdot_filename_escapes :
    _unquoted_filename dotdotResolver "https://wetransfer.com/downloads/eu/abc" = ".." ∧
    staysWithin "/tmp/zipfiles"
      (_unquoted_filename dotdotResolver "https://wetransfer.com/downloads/eu/abc") = false := by
  exact ⟨by decide, by decide⟩

/-- `List.contains` is false when the element is not a member. -/
theorem contains_eq_false_of_not_mem {c : Char} :
    ∀ {l : List Char}, c ∉ l → l.contains c = false := by
  intro l h
  cases hc : l.contains c
  · rfl
  · exact absurd (List.mem_of_elem_eq_true hc) h

/-- C9 amended: the derived file name never contains a path separator —
every `/` and every `\` is removed — but the claim's stronger guarantee
fails: the name is not free of path-traversal segments, since it can be
exactly `..`, which joined to the output directory resolves to its
parent. -/
theorem c9_no_separators_in_filename (resolver : String → String) (we_url : String) :
    ((_unquoted_filename resolver we_url).toList.contains '/') = false ∧
    ((_unquoted_filename resolver we_url).toList.contains '\\') = false := by
  have hslash : '/' ∉ pyRemove "/"
      (pyRemove "../" (percentDecode (lastSeg (urlPath (resolver we_url))))) :=
    not_mem_pyRemoveFuel_single '/' _ _ (Nat.le_refl _)
  have hsub : List.Sublist
      (pyRemove "\\" (pyRemove "/"
        (pyRemove "../" (percentDecode (lastSeg (urlPath (resolver we_url)))))))
      (pyRemove "/" (pyRemove "../" (percentDecode (lastSeg (urlPath (resolver we_url)))))) :=
    pyRemoveFuel_sublist _ _ _
  have hback : '\\' ∉ pyRemove "\\"
      (pyRemove "/" (pyRemove "../" (percentDecode (lastSeg (urlPath (resolver we_url)))))) :=
    not_mem_pyRemoveFuel_single '\\' _ _ (Nat.le_refl _)
  refine ⟨contains_eq_false_of_not_mem ?_, contains_eq_false_of_not_mem hback⟩
  intro hmem
  exact hslash (hsub.subset hmem)
